import Mathlib

/-!
Shallow embedding of `src/infinite_busy_cmd.py` (the single source file of the
infinite-busy-terminal repository) and verification of the frozen claims about
its specification.

Modelling conventions
* Python's random draws are explicit inputs: `random.random()` draws are
  rationals (uniform on `[0,1)` in the real program), `random.choice(bank)`
  is an arbitrary natural index reduced mod the bank length (every element
  reachable, uniformly in the real program), `random.randint(lo, hi)` is
  `lo + seed % (hi - lo + 1)` — Python `randint` includes both endpoints.
* Wall-clock readings (`datetime.now()` renderings) are explicit string
  inputs, separate from the random source.
* The float `pct = round(random.uniform(0.1, 99.9), 2)` is only ever
  interpolated into the middle of a sentence; its decimal rendering is
  abstracted as an arbitrary string supplied by the random side.
* Time in `progress_bar_simulation` is abstracted as the list of elapsed-time
  samples (rationals) the loop reads; the real monotone clock eventually
  exceeds any duration, which appears as a hypothesis.
-/

namespace InfiniteBusy

/-- Word bank `adjectives` (source lines 48–52). -/
def adjectives : List String :=
  ["optimized", "resilient", "concurrent", "deprecated", "asynchronous",
   "deterministic", "probabilistic", "scalable", "redundant", "compressed",
   "normalized", "encrypted", "authenticated", "verified", "transient"]

/-- Word bank `verbs` (source lines 54–58). -/
def verbs : List String :=
  ["initializing", "synchronizing", "compacting", "indexing", "migrating",
   "ingesting", "persisting", "validating", "replicating", "profiling",
   "seeding", "evicting", "flushing", "calibrating", "probing"]

/-- Word bank `nouns` (source lines 60–64). -/
def nouns : List String :=
  ["cluster", "shard", "manifest", "cache", "backplane", "registry", "snapshot",
   "transaction log", "pipeline", "matrix", "vector", "protocol", "kernel",
   "artifact", "handshake", "telemetry stream"]

/-- Word bank `systems` (source lines 66–69). -/
def systems : List String :=
  ["auth service", "payment gateway", "ingest worker", "analytics node",
   "time-series engine", "replicator", "orchestrator", "scheduler", "ETL job"]

/-- Severity levels `error_levels` (source line 71). -/
def error_levels : List String :=
  ["INFO", "DEBUG", "WARN", "ERROR", "TRACE", "CRITICAL"]

/-- Word bank `status_phrases` (source lines 86–89). -/
def status_phrases : List String :=
  ["OK", "COMPLETE", "FAILED (retrying)", "PENDING", "QUEUED", "ABORTED", "SUCCESS",
   "PARTIAL SUCCESS", "TIMED OUT", "DEFERRED"]

/-- Word bank `details` (source lines 91–95). -/
def details : List String :=
  ["waiting for quorum", "performing sanity checks", "evicting stale entries",
   "applying adaptive backoff", "rebuilding index", "rotating keys",
   "reconciling state across zones", "compressing deltas", "validating checksums"]

/-- The fixed set of synthetic command fragments `random.choice` draws from in
`main` (source lines 207–210). -/
def cmd_fragments : List String :=
  ["run-migration", "sync-index", "rotate-keys", "reconcile --fast",
   "snapshot --compress", "audit --level=high", "throttle --limit=200"]

/-- One placeholder or literal piece of a `str.format` template string. -/
inductive Frag where
  | lit (s : String)
  | adj
  | verb
  | verb_cap
  | noun
  | system
  | num
  | pct
  | ms
  | status
  | detail
  | time
  deriving DecidableEq

/-- The ten `sentence_templates` (source lines 73–84), transliterated
fragment-by-fragment from the literal format strings. -/
def sentence_templates : List (List Frag) :=
  [[.lit "The ", .adj, .lit " ", .noun, .lit " ", .verb, .lit " ", .detail, .lit "."],
   [.verb_cap, .lit " ", .noun, .lit " in the ", .system, .lit " to satisfy integrity checks."],
   [.lit "Checkpoint reached: ", .noun, .lit " ", .verb, .lit " with ", .num, .lit " entries processed."],
   [.verb_cap, .lit " ", .noun, .lit "... ", .status, .lit "."],
   [.lit "User-visible latency improved by ", .pct, .lit "% after ", .verb, .lit " of the ", .noun, .lit "."],
   [.lit "Scheduling background ", .noun, .lit " for ", .system, .lit " at ", .time, .lit "."],
   [.lit "Rolling update: ", .noun, .lit " on ", .system, .lit " moved to ", .adj, .lit " state."],
   [.lit "Telemetry: ", .num, .lit " events/sec for ", .system, .lit " (p90 ", .ms, .lit "ms)."],
   [.lit "Cache miss ratio at ", .pct, .lit "%, invoking ", .verb, .lit " routine."],
   [.system, .lit " reported: ", .detail]]

/-- Model of `random.choice(l)`: an arbitrary natural index reduced modulo the
length of the (nonempty) bank, so that every element is reachable. -/
def bankGet {α : Type} (l : List α) (d : α) (i : ℕ) : α :=
  l.getD (i % l.length) d

/-- Model of Python `random.randint(lo, hi)` (both endpoints INCLUDED): the raw
draw is the seed `v`, reduced onto the closed interval `[lo, hi]`. -/
def randintN (lo hi v : ℕ) : ℕ :=
  lo + v % (hi - lo + 1)

/-- Python `str.lower()` on the ASCII strings this program builds. -/
def pyLower (s : String) : String :=
  String.mk (s.data.map Char.toLower)

/-- Python `str.capitalize()`: first character upper-cased, the rest
lower-cased. -/
def pyCapitalize (s : String) : String :=
  match s.data with
  | [] => ""
  | ch :: rest => String.mk (Char.toUpper ch :: rest.map Char.toLower)

/-- The random values one call of `pick` (source lines 101–114) consumes: one
bank index per placeholder category, the two `randint` seeds, and the rendering
of the `round(random.uniform(0.1, 99.9), 2)` float. -/
structure Choices where
  adjIdx : ℕ
  verbIdx : ℕ
  verbCapIdx : ℕ
  nounIdx : ℕ
  systemIdx : ℕ
  numSeed : ℕ
  pctStr : String
  msSeed : ℕ
  statusIdx : ℕ
  detailIdx : ℕ
  deriving DecidableEq

/-- Value substituted for one fragment of a template, as `template.format`
does in `pick`; `clkTime` is the `datetime.now().strftime("%H:%M:%S")` reading
made during this `pick` call. -/
def renderFrag (clkTime : String) (c : Choices) : Frag → String
  | .lit s => s
  | .adj => bankGet adjectives "" c.adjIdx
  | .verb => bankGet verbs "" c.verbIdx
  | .verb_cap => pyCapitalize (bankGet verbs "" c.verbCapIdx)
  | .noun => bankGet nouns "" c.nounIdx
  | .system => bankGet systems "" c.systemIdx
  | .num => toString (randintN 1 99999 c.numSeed)
  | .pct => c.pctStr
  | .ms => toString (randintN 1 1200 c.msSeed)
  | .status => bankGet status_phrases "" c.statusIdx
  | .detail => bankGet details "" c.detailIdx
  | .time => clkTime

/-- `pick(template)` (source lines 101–114): fill every placeholder of the
template, concatenating the pieces exactly as `str.format` does. -/
def pick (clkTime : String) (c : Choices) (t : List Frag) : String :=
  String.join (t.map (renderFrag clkTime c))

/-- The probability literal `0.35` guarding the second chained template
(source line 195). -/
def CHAIN_PROB : ℚ := mkRat 35 100

/-- The probability literal `0.22` guarding the appended command fragment
(source line 206). -/
def CMD_PROB : ℚ := mkRat 22 100

/-- `API_QUOTE_FREQ = 0.08` (source line 41). -/
def API_QUOTE_FREQ : ℚ := mkRat 8 100

/-- `random.choices(error_levels, weights=[40, 25, 15, 8, 8, 4])[0]` (source
line 201): a uniform draw `w` on `[0, 100)` mapped through the cumulative
weights. -/
def pickLevel (w : ℚ) : String :=
  if w < 40 then "INFO"
  else if w < 65 then "DEBUG"
  else if w < 80 then "WARN"
  else if w < 88 then "ERROR"
  else if w < 96 then "TRACE"
  else "CRITICAL"

/-- The wall-clock readings one loop iteration makes while building a log
line: `now_ts()` at line assembly, and the `%H:%M:%S` rendering read inside
each of the (up to two) `pick` calls. -/
structure ClockState where
  ts : String
  t1time : String
  t2time : String
  deriving DecidableEq

/-- The random values one iteration of `main`'s line-building code (source
lines 194–211) consumes. -/
structure LineRand where
  chainDraw : ℚ
  t1 : ℕ
  c1 : Choices
  t2 : ℕ
  c2 : Choices
  lvlDraw : ℚ
  pidSeed : ℕ
  cmdDraw : ℚ
  cmdIdx : ℕ
  deriving DecidableEq

/-- `random.choice(sentence_templates)`. -/
def chooseTemplate (i : ℕ) : List Frag :=
  bankGet sentence_templates [] i

/-- The sentence `s` of source lines 194–198: one filled template, or — when
the `random.random() < 0.35` draw hits — two, the second lower-cased and
appended after a space. -/
def sentencePart (clk : ClockState) (r : LineRand) : String :=
  if r.chainDraw < CHAIN_PROB then
    pick clk.t1time r.c1 (chooseTemplate r.t1) ++ " " ++
      pyLower (pick clk.t2time r.c2 (chooseTemplate r.t2))
  else
    pick clk.t1time r.c1 (chooseTemplate r.t1)

/-- The synthetic process id `random.randint(1000, 99999)` (source line 202). -/
def pidOf (r : LineRand) : ℕ :=
  randintN 1000 99999 r.pidSeed

/-- The f-string of source line 203:
`log_line = f"{now_ts()} [{lvl}] (pid:{pid}) {s}"`. -/
def logBase (clk : ClockState) (r : LineRand) : String :=
  clk.ts ++ " [" ++ pickLevel r.lvlDraw ++ "] (pid:" ++ toString (pidOf r) ++ ") " ++
    sentencePart clk r

/-- The finished log line of source lines 194–211: the base line, plus — when
the `random.random() < 0.22` draw hits — the appended command fragment
`log_line += f"  cmd: {cmd}"`. -/
def logLine (clk : ClockState) (r : LineRand) : String :=
  if r.cmdDraw < CMD_PROB then
    logBase clk r ++ "  cmd: " ++ bankGet cmd_fragments "" r.cmdIdx
  else
    logBase clk r

/-- Outcome of `resp.json()` followed by the dict lookups: the call raises
(malformed body), parses to a non-dict (so `.get` raises `AttributeError`),
or parses to a dict whose `content`/`author` keys may be absent. -/
inductive JsonBody where
  | parseError
  | nonObject
  | obj (content author : Option String)
  deriving DecidableEq

/-- Outcome of `requests.get(...)`: the call raises (network error or
timeout), or returns a response with a status code and a body. -/
inductive HttpOutcome where
  | exn
  | resp (status : ℕ) (body : JsonBody)
  deriving DecidableEq

/-- Rendering of an optional value inside the f-string of source line 129;
Python renders an absent key (`None`) as the text `None`. -/
def pyNoneStr : Option String → String
  | some s => s
  | none => "None"

/-- `fetch_quote()` (source lines 121–132): `None` when `requests` is
missing; inside `try`, any raise is caught and yields `None`; a 200 response
with a parsed dict yields the quoted string; every other path falls through
to the final `return None`. -/
def fetch_quote (requestsAvailable : Bool) (h : HttpOutcome) : Option String :=
  if requestsAvailable = false then none
  else
    match h with
    | .exn => none
    | .resp status body =>
      if status = 200 then
        match body with
        | .parseError => none
        | .nonObject => none
        | .obj content author =>
          some ("\"" ++ pyNoneStr content ++ "\" — " ++ pyNoneStr author)
      else none

/-- The ways a fetch can fail: the `requests` capability is unavailable, the
request raised (network error / timeout), the status was not 200, or the body
was malformed (JSON decode failure or not a JSON object). -/
def FetchFailure (requestsAvailable : Bool) (h : HttpOutcome) : Prop :=
  requestsAvailable = false ∨ h = .exn ∨
    (∃ s b, h = .resp s b ∧ s ≠ 200) ∨
    (∃ s, h = .resp s .parseError) ∨
    (∃ s, h = .resp s .nonObject)

/-- The line printed by one pass through source lines 184–224 when the loop
reaches the text-emitting branches: the quote branch (entered when `--use-api`
is on, `requests` is present and the draw is under `API_QUOTE_FREQ`) prints
the fetched quote if there is one, and otherwise execution falls through to
local line generation. -/
def emittedLine (clk : ClockState) (useApi requestsAvailable : Bool) (quoteDraw : ℚ)
    (h : HttpOutcome) (r : LineRand) : String :=
  if useApi && requestsAvailable && decide (quoteDraw < API_QUOTE_FREQ) then
    match fetch_quote requestsAvailable h with
    | some q => clk.ts ++ " QUOTE: " ++ q
    | none => logLine clk r
  else logLine clk r

/-- Python `int()` truncates toward zero. -/
def pyInt (q : ℚ) : ℤ :=
  if 0 ≤ q then ⌊q⌋ else ⌈q⌉

/-- The percentage printed by one frame of `progress_bar_simulation` (source
line 142): `int(frac * 100)` with `frac = min(1.0, elapsed / duration)`. -/
def pctFrame (duration t : ℚ) : ℤ :=
  pyInt (min 1 (t / duration) * 100)

/-- The percentages of the frames `progress_bar_simulation` (source lines
135–148) renders, driven by the list of elapsed-time samples the loop reads:
each iteration prints its frame, then breaks when `frac >= 1.0`. -/
def progress_bar_frames : List ℚ → ℚ → List ℤ
  | [], _ => []
  | t :: ts, d =>
    if 1 ≤ min 1 (t / d) then [pctFrame d t]
    else pctFrame d t :: progress_bar_frames ts d

/-- One emission of the driver loop, abstracted to how much it advances
`line_counter`: a printed log line (+1), a printed quote (+1), a spinner
(+2), a progress bar (+3) — source lines 177, 181, 190, 226. -/
inductive Emission where
  | line
  | quote
  | spin
  | bar
  deriving DecidableEq

/-- How much each emission adds to `line_counter`. -/
def emissionInc : Emission → ℕ
  | .line => 1
  | .quote => 1
  | .spin => 2
  | .bar => 3

/-- The guard of source line 166:
`if clear_every and clear_every > 0 and line_counter and line_counter % clear_every == 0`.
`clear_every` is an `int` CLI argument, so it is modelled as an integer. -/
def clearFires (clearEvery : ℤ) (counter : ℕ) : Bool :=
  decide (clearEvery ≠ 0) && decide (0 < clearEvery) &&
    decide (counter ≠ 0) && decide ((counter : ℤ) % clearEvery = 0)

/-- Number of screen clears over a run of the driver loop: before each
emission the guard is checked against the current counter, then the counter
advances by the emission's increment. -/
def runClears : List Emission → ℤ → ℕ → ℕ
  | [], _, _ => 0
  | e :: es, n, counter =>
    (if clearFires n counter then 1 else 0) + runClears es n (counter + emissionInc e)

/-- Clears over a whole run started with `line_counter = 0`. -/
def numClears (es : List Emission) (n : ℤ) : ℕ :=
  runClears es n 0

/-- Total `line_counter` advance of a run. -/
def unitsOf (es : List Emission) : ℕ :=
  (es.map emissionInc).sum

/-- Whether the clear guard fires at the top of iteration `i` (0-indexed) of
a run: the counter then equals the units of the first `i` emissions. -/
def clearAtStep (es : List Emission) (n : ℤ) (i : ℕ) : Bool :=
  clearFires n (unitsOf (es.take i))

/-- Last character of a string, if any. -/
def lastChar (s : String) : Option Char :=
  s.data.getLast?

/-- A concrete random outcome for one `pick` call: bank indices 0/0/0/3/0,
seeds 0, `pct` rendered as `1.23`, status 0, detail index 5 (`rotating keys`). -/
def cexChoices : Choices :=
  ⟨0, 0, 0, 3, 0, 0, "1.23", 0, 0, 5⟩

/-- A concrete clock: one timestamp reading per place the source reads the
clock. -/
def cexClock : ClockState :=
  ⟨"2024-01-01 10:00:00", "10:00:00", "10:00:00"⟩

/-- The same run one second later. -/
def cexClockB : ClockState :=
  ⟨"2024-01-01 10:00:01", "10:00:01", "10:00:01"⟩

/-- A concrete line draw: no second template (draw 1), template 0, level draw
0 (INFO), pid seed 0, no command fragment (draw 1). -/
def cexLine : LineRand :=
  ⟨1, 0, cexChoices, 0, cexChoices, 0, 0, 1, 0⟩

/-- A concrete line draw identical to `cexLine` except that the command draw
(0) is under `CMD_PROB`, so the command fragment `run-migration` is appended. -/
def cexCmdLine : LineRand :=
  ⟨1, 0, cexChoices, 0, cexChoices, 0, 0, 0, 0⟩

/-- A concrete line draw whose pid seed 98999 lands on the top endpoint of
`randint(1000, 99999)`. -/
def cexPidLine : LineRand :=
  ⟨1, 0, cexChoices, 0, cexChoices, 0, 98999, 1, 0⟩

/-- A random outcome for one `pick` call selecting `optimized` (adjective 0),
`evicting` (verb 11), `cache` (noun 3) and `rotating keys` (detail 5). -/
def cexC4 : Choices :=
  ⟨0, 11, 0, 3, 0, 0, "", 0, 0, 5⟩

/-- A concrete line draw whose chain draw 0 is under `CHAIN_PROB`, so a second
template (index 3) is appended. -/
def cexChainLine : LineRand :=
  ⟨0, 0, cexChoices, 3, cexChoices, 0, 0, 1, 0⟩

/-- `random.choice` on a nonempty bank returns an element of the bank. -/
theorem bankGet_mem {α : Type} (l : List α) (d : α) (i : ℕ) (h : l ≠ []) :
    bankGet l d i ∈ l := by
  have hlen : 0 < l.length := List.length_pos.mpr h
  have hlt : i % l.length < l.length := Nat.mod_lt _ hlen
  rw [bankGet, List.getD_eq_getElem l d hlt]
  exact List.getElem_mem hlt

/-- Appending on the left does not change a known last character. -/
theorem lastChar_append (s t : String) (ch : Char) (h : lastChar t = some ch) :
    lastChar (s ++ t) = some ch := by
  unfold lastChar at h ⊢
  rw [String.data_append, List.getLast?_append, h]
  rfl

/-- Lower-casing maps the last character through `Char.toLower`. -/
theorem lastChar_pyLower (s : String) :
    lastChar (pyLower s) = Option.map Char.toLower (lastChar s) := by
  unfold lastChar pyLower
  exact List.getLast?_map _ _

/-- Any filled template whose index is not 9 (mod 10) ends with the period
embedded in its template literal. -/
theorem pick_lastChar_dot (clkT : String) (c : Choices) (k : ℕ) (hk : k % 10 ≠ 9) :
    lastChar (pick clkT c (chooseTemplate k)) = some '.' := by
  have hcases : k % 10 = 0 ∨ k % 10 = 1 ∨ k % 10 = 2 ∨ k % 10 = 3 ∨ k % 10 = 4 ∨
      k % 10 = 5 ∨ k % 10 = 6 ∨ k % 10 = 7 ∨ k % 10 = 8 := by omega
  have hlen : sentence_templates.length = 10 := rfl
  unfold chooseTemplate bankGet
  rw [hlen]
  rcases hcases with h | h | h | h | h | h | h | h | h <;> rw [h] <;>
    simp only [sentence_templates, List.getD, List.getElem?_cons_zero,
      List.getElem?_cons_succ, Option.getD_some, pick, List.map, String.join,
      List.foldl, renderFrag] <;>
    exact lastChar_append _ _ _ (by decide)

/-- C1 (amended): a driver-loop log line that does NOT get the optional
trailing command fragment and whose final sentence template is one of the
nine that embed terminal punctuation (every template except
index 9, the one reading `system reported: detail`) terminates with that
embedded period — including lines built from two concatenated templates,
where the lower-cased second template supplies the final period. -/
theorem log_line_trailing_period (clk : ClockState) (r : LineRand)
    (hcmd : ¬ r.cmdDraw < CMD_PROB)
    (hlast : (if r.chainDraw < CHAIN_PROB then r.t2 else r.t1) % 10 ≠ 9) :
    lastChar (logLine clk r) = some '.' := by
  rw [logLine, if_neg hcmd, logBase]
  by_cases hchain : r.chainDraw < CHAIN_PROB
  · rw [if_pos hchain] at hlast
    rw [sentencePart, if_pos hchain]
    have h2 : lastChar (pyLower (pick clk.t2time r.c2 (chooseTemplate r.t2))) = some '.' := by
      rw [lastChar_pyLower, pick_lastChar_dot _ _ _ hlast]
      decide
    exact lastChar_append _ _ _ (lastChar_append _ _ _ h2)
  · rw [if_neg hchain] at hlast
    rw [sentencePart, if_neg hchain]
    exact lastChar_append _ _ _ (pick_lastChar_dot _ _ _ hlast)

/-- Witness for C1's amended theorem at a concrete clock and draw. -/
theorem log_line_trailing_period_witness :
    lastChar (logLine cexClock cexLine) = some '.' :=
  log_line_trailing_period cexClock cexLine (by decide) (by decide)

/-- C1 counterexample: a line built from template 0 (whose embedded
punctuation is the period) with the command fragment appended ends with the
letter n of `run-migration`, not with the template's period. -/
theorem cmd_suffix_breaks_trailing_period :
    chooseTemplate cexCmdLine.t1 =
      [Frag.lit "The ", Frag.adj, Frag.lit " ", Frag.noun, Frag.lit " ", Frag.verb,
        Frag.lit " ", Frag.detail, Frag.lit "."] ∧
    lastChar (logLine cexClock cexCmdLine) = some 'n' ∧
    lastChar (logLine cexClock cexCmdLine) ≠ some '.' := by
  refine ⟨by decide, by decide, by decide⟩

/-- C2 (amended): the synthetic process id `random.randint(1000, 99999)` lies
in the CLOSED interval from 1000 to 99999 — Python `randint` includes both
endpoints, so 99999 itself is a possible pid. -/
theorem pid_range_closed (r : LineRand) : 1000 ≤ pidOf r ∧ pidOf r ≤ 99999 := by
  unfold pidOf randintN
  omega

/-- C2 counterexample: the pid seed 98999 produces exactly 99999, violating
the claimed strict upper bound. -/
theorem pid_reaches_99999 :
    pidOf cexPidLine = 99999 ∧ ¬ pidOf cexPidLine < 99999 := by
  refine ⟨by decide, by decide⟩

/-- C3: the generator picks its template by index from the fixed ten-element
template bank (each reachable), chains a lower-cased second template exactly
when the first uniform draw is below `CHAIN_PROB` = 0.35, appends a command
fragment from the fixed seven-element set exactly when the second uniform
draw is below `CMD_PROB` = 0.22, and under the uniform measure on the unit
interval the triggering sets have measure exactly 0.35 and 0.22. -/
theorem generator_randomization :
    (∀ (clk : ClockState) (r : LineRand), r.chainDraw < CHAIN_PROB →
        sentencePart clk r =
          pick clk.t1time r.c1 (chooseTemplate r.t1) ++ " " ++
            pyLower (pick clk.t2time r.c2 (chooseTemplate r.t2))) ∧
    (∀ (clk : ClockState) (r : LineRand), ¬ r.chainDraw < CHAIN_PROB →
        sentencePart clk r = pick clk.t1time r.c1 (chooseTemplate r.t1)) ∧
    (∀ i : ℕ, chooseTemplate i ∈ sentence_templates) ∧
    (∀ t ∈ sentence_templates, ∃ i : ℕ, chooseTemplate i = t) ∧
    (∀ (clk : ClockState) (r : LineRand), r.cmdDraw < CMD_PROB →
        ∃ c ∈ cmd_fragments, logLine clk r = logBase clk r ++ "  cmd: " ++ c) ∧
    (∀ (clk : ClockState) (r : LineRand), ¬ r.cmdDraw < CMD_PROB →
        logLine clk r = logBase clk r) ∧
    MeasureTheory.volume {x : ℝ | 0 ≤ x ∧ x < 1 ∧ x < ((CHAIN_PROB : ℚ) : ℝ)} =
      ENNReal.ofReal ((CHAIN_PROB : ℚ) : ℝ) ∧
    MeasureTheory.volume {x : ℝ | 0 ≤ x ∧ x < 1 ∧ x < ((CMD_PROB : ℚ) : ℝ)} =
      ENNReal.ofReal ((CMD_PROB : ℚ) : ℝ) := by
  refine ⟨?_, ?_, ?_, ?_, ?_, ?_, ?_, ?_⟩
  · intro clk r h; rw [sentencePart, if_pos h]
  · intro clk r h; rw [sentencePart, if_neg h]
  · intro i; exact bankGet_mem _ _ _ (by decide)
  · intro t ht
    fin_cases ht
    · exact ⟨0, by decide⟩
    · exact ⟨1, by decide⟩
    · exact ⟨2, by decide⟩
    · exact ⟨3, by decide⟩
    · exact ⟨4, by decide⟩
    · exact ⟨5, by decide⟩
    · exact ⟨6, by decide⟩
    · exact ⟨7, by decide⟩
    · exact ⟨8, by decide⟩
    · exact ⟨9, by decide⟩
  · intro clk r h
    exact ⟨bankGet cmd_fragments "" r.cmdIdx, bankGet_mem _ _ _ (by decide),
      by rw [logLine, if_pos h]⟩
  · intro clk r h; rw [logLine, if_neg h]
  · have hset : {x : ℝ | 0 ≤ x ∧ x < 1 ∧ x < ((CHAIN_PROB : ℚ) : ℝ)} =
        Set.Ico (0:ℝ) ((CHAIN_PROB : ℚ) : ℝ) := by
      ext x
      simp only [Set.mem_setOf_eq, Set.mem_Ico]
      have hlt : ((CHAIN_PROB : ℚ) : ℝ) < 1 := by norm_num [CHAIN_PROB]
      constructor
      · rintro ⟨h0, _, h2⟩; exact ⟨h0, h2⟩
      · rintro ⟨h0, h2⟩; exact ⟨h0, lt_trans h2 hlt, h2⟩
    rw [hset, Real.volume_Ico, sub_zero]
  · have hset : {x : ℝ | 0 ≤ x ∧ x < 1 ∧ x < ((CMD_PROB : ℚ) : ℝ)} =
        Set.Ico (0:ℝ) ((CMD_PROB : ℚ) : ℝ) := by
      ext x
      simp only [Set.mem_setOf_eq, Set.mem_Ico]
      have hlt : ((CMD_PROB : ℚ) : ℝ) < 1 := by norm_num [CMD_PROB]
      constructor
      · rintro ⟨h0, _, h2⟩; exact ⟨h0, h2⟩
      · rintro ⟨h0, h2⟩; exact ⟨h0, lt_trans h2 hlt, h2⟩
    rw [hset, Real.volume_Ico, sub_zero]

/-- Witness for C3 at concrete draws on both sides of the chain threshold. -/
theorem generator_randomization_witness :
    sentencePart cexClock cexChainLine =
      pick cexClock.t1time cexChainLine.c1 (chooseTemplate cexChainLine.t1) ++ " " ++
        pyLower (pick cexClock.t2time cexChainLine.c2 (chooseTemplate cexChainLine.t2)) ∧
    logLine cexClock cexLine = logBase cexClock cexLine :=
  ⟨generator_randomization.1 cexClock cexChainLine (by decide),
   generator_randomization.2.2.2.2.2.1 cexClock cexLine (by decide)⟩

/-- C4: filling the template `The adj noun verb detail.` (template 0) with a
random source that selects `optimized`, `cache`, `evicting` and
`rotating keys` yields exactly the claimed sentence. -/
theorem template_example_fill (clkT : String) (c : Choices)
    (h1 : bankGet adjectives "" c.adjIdx = "optimized")
    (h2 : bankGet nouns "" c.nounIdx = "cache")
    (h3 : bankGet verbs "" c.verbIdx = "evicting")
    (h4 : bankGet details "" c.detailIdx = "rotating keys") :
    pick clkT c (chooseTemplate 0) = "The optimized cache evicting rotating keys." := by
  have ht : chooseTemplate 0 =
      [Frag.lit "The ", Frag.adj, Frag.lit " ", Frag.noun, Frag.lit " ", Frag.verb,
        Frag.lit " ", Frag.detail, Frag.lit "."] := by decide
  rw [ht, pick]
  simp only [List.map, renderFrag, String.join, List.foldl]
  rw [h1, h2, h3, h4]
  decide

/-- Witness for C4 at the concrete bank indices 0 / 3 / 11 / 5. -/
theorem template_example_fill_witness :
    pick "12:00:00" cexC4 (chooseTemplate 0) = "The optimized cache evicting rotating keys." :=
  template_example_fill "12:00:00" cexC4 (by decide) (by decide) (by decide) (by decide)

/-- C5 (amended): line generation is a pure function of the random draws AND
the wall-clock readings — two runs with the same random-source state and the
same clock produce the identical string. Equality of the random state alone
does not suffice, because `now_ts()` and the `time` placeholder read the
clock: see the counterexample. -/
theorem line_generation_deterministic (clk clk' : ClockState) (r r' : LineRand)
    (hr : r = r') (hclk : clk = clk') :
    logLine clk r = logLine clk' r' := by
  rw [hr, hclk]

/-- Witness for C5's amended theorem at a concrete clock and draw. -/
theorem line_generation_deterministic_witness :
    logLine cexClock cexLine = logLine cexClock cexLine :=
  line_generation_deterministic cexClock cexClock cexLine cexLine rfl rfl

/-- C5 counterexample: the same random-source state run under two different
clock readings (one second apart) produces two different log lines, so the
output is not determined by the random source alone. -/
theorem clock_changes_line_for_fixed_rand :
    cexClock ≠ cexClockB ∧ logLine cexClock cexLine ≠ logLine cexClockB cexLine := by
  refine ⟨by decide, by decide⟩

/-- Every rendered progress-bar percentage is at most 100. -/
theorem pctFrame_le_100 (d t : ℚ) : pctFrame d t ≤ 100 := by
  unfold pctFrame pyInt
  have hmin : min 1 (t / d) ≤ 1 := min_le_left _ _
  have hq : min 1 (t / d) * 100 ≤ 100 := by nlinarith
  split
  · calc ⌊min 1 (t / d) * 100⌋ ≤ ⌊(100:ℚ)⌋ := Int.floor_le_floor hq
      _ = 100 := by norm_num
  · rename_i hneg
    push_neg at hneg
    calc ⌈min 1 (t / d) * 100⌉ ≤ ⌈(0:ℚ)⌉ := Int.ceil_le_ceil (le_of_lt hneg)
      _ = 0 := by norm_num
      _ ≤ 100 := by norm_num

/-- A frame shows exactly 100 precisely when the clamped fraction has reached
1, i.e. when the sampled elapsed time has reached the duration. -/
theorem pctFrame_eq_100_iff (d t : ℚ) : pctFrame d t = 100 ↔ 1 ≤ min 1 (t / d) := by
  constructor
  · intro h
    by_contra hlt
    push_neg at hlt
    have hq : min 1 (t / d) * 100 < 100 := by nlinarith
    unfold pctFrame pyInt at h
    split at h
    · have hfl : ⌊min 1 (t / d) * 100⌋ < 100 := by
        apply Int.floor_lt.mpr
        push_cast
        exact hq
      omega
    · rename_i hneg
      push_neg at hneg
      have hcl : ⌈min 1 (t / d) * 100⌉ ≤ 0 := by
        apply Int.ceil_le.mpr
        push_cast
        linarith
      omega
  · intro h
    have hmin : min 1 (t / d) = 1 := le_antisymm (min_le_left _ _) h
    unfold pctFrame pyInt
    rw [hmin]
    rw [if_pos (by norm_num)]
    norm_num

/-- C6: over any positive duration, once some elapsed-time sample reaches the
duration (as the real clock eventually does), the rendered frames show 100%
exactly once, that frame is the final one, and no frame ever exceeds 100%. -/
theorem progress_bar_reaches_100_once (samples : List ℚ) (d : ℚ) (hd : 0 < d)
    (hreach : ∃ t ∈ samples, d ≤ t) :
    (∀ p ∈ progress_bar_frames samples d, p ≤ 100) ∧
      (progress_bar_frames samples d).count 100 = 1 ∧
      (progress_bar_frames samples d).getLast? = some 100 := by
  induction samples with
  | nil => simp at hreach
  | cons t ts ih =>
    by_cases h1 : 1 ≤ min 1 (t / d)
    · have h100 : pctFrame d t = 100 := (pctFrame_eq_100_iff d t).mpr h1
      simp only [progress_bar_frames, if_pos h1]
      refine ⟨?_, ?_, ?_⟩
      · intro p hp
        simp only [List.mem_singleton] at hp
        subst hp
        exact pctFrame_le_100 d t
      · simp [h100]
      · simp [h100]
    · have hne : pctFrame d t ≠ 100 := fun hc => h1 ((pctFrame_eq_100_iff d t).mp hc)
      have hts : ∃ u ∈ ts, d ≤ u := by
        rcases hreach with ⟨u, hu, hdu⟩
        rcases List.mem_cons.mp hu with rfl | hmem
        · exfalso
          apply h1
          have : (1:ℚ) ≤ u / d := (one_le_div hd).mpr hdu
          exact le_min le_rfl this
        · exact ⟨u, hmem, hdu⟩
      obtain ⟨ihle, ihcount, ihlast⟩ := ih hts
      simp only [progress_bar_frames, if_neg h1]
      refine ⟨?_, ?_, ?_⟩
      · intro p hp
        rcases List.mem_cons.mp hp with rfl | hp'
        · exact pctFrame_le_100 d t
        · exact ihle p hp'
      · rw [List.count_cons]
        simp [hne, ihcount]
      · cases hframes : progress_bar_frames ts d with
        | nil => rw [hframes] at ihlast; simp at ihlast
        | cons b l =>
          rw [hframes] at ihlast
          rw [List.getLast?_cons_cons]
          exact ihlast

/-- Witness for C6 on the sample run with elapsed times 0 and 2 over
duration 1: frames 0% then 100%. -/
theorem progress_bar_reaches_100_once_witness :
    (∀ p ∈ progress_bar_frames [0, 2] 1, p ≤ 100) ∧
      (progress_bar_frames [0, 2] 1).count 100 = 1 ∧
      (progress_bar_frames [0, 2] 1).getLast? = some 100 :=
  progress_bar_reaches_100_once [0, 2] 1 (by norm_num) ⟨2, by decide, by norm_num⟩

/-- C7: every failure mode of the remote-quote fetch — `requests` missing,
the request raising (network error / timeout), a non-200 status, or a
malformed body (JSON decode failure or non-object JSON) — makes
`fetch_quote` return `none`, and the driver loop then emits the locally
generated log line instead. -/
theorem fetch_failure_yields_none_and_fallback (ra : Bool) (h : HttpOutcome)
    (hf : FetchFailure ra h) :
    fetch_quote ra h = none ∧
      ∀ (clk : ClockState) (useApi : Bool) (qd : ℚ) (r : LineRand),
        emittedLine clk useApi ra qd h r = logLine clk r := by
  have hnone : fetch_quote ra h = none := by
    rcases hf with hra | rfl | ⟨s, b, rfl, hs⟩ | ⟨s, rfl⟩ | ⟨s, rfl⟩
    · simp [fetch_quote, hra]
    · cases ra <;> simp [fetch_quote]
    · cases ra <;> simp [fetch_quote, hs]
    · cases ra <;> by_cases hs : s = 200 <;> simp [fetch_quote, hs]
    · cases ra <;> by_cases hs : s = 200 <;> simp [fetch_quote, hs]
  refine ⟨hnone, ?_⟩
  intro clk useApi qd r
  unfold emittedLine
  rw [hnone]
  split <;> rfl

/-- Witness for C7: a 503 response yields no quote and the loop falls back to
the local line. -/
theorem fetch_failure_witness :
    fetch_quote true (HttpOutcome.resp 503 (JsonBody.obj none none)) = none ∧
      emittedLine cexClock true true 0 (HttpOutcome.resp 503 (JsonBody.obj none none)) cexLine =
        logLine cexClock cexLine := by
  have h := fetch_failure_yields_none_and_fallback true
    (HttpOutcome.resp 503 (JsonBody.obj none none))
    (Or.inr (Or.inr (Or.inl ⟨503, JsonBody.obj none none, rfl, by norm_num⟩)))
  exact ⟨h.1, h.2 cexClock true 0 cexLine⟩

/-- C8 (amended): with clear interval N > 0, the screen clear fires at the
top of iteration i of a run of unit-increment emissions exactly when the line
counter i is a nonzero multiple of N — once every N lines.  Spinners and
progress bars advance the counter by 2 and 3 and can jump past a multiple of
N, skipping that clear: see the counterexample. -/
theorem clear_exactly_at_multiples_unit_run (m : ℕ) (n : ℤ) (hn : 0 < n)
    (i : ℕ) (hi : i ≤ m) :
    clearAtStep (List.replicate m Emission.line) n i =
      decide (0 < i ∧ (n ∣ (i : ℤ))) := by
  have hunits : unitsOf ((List.replicate m Emission.line).take i) = i := by
    rw [List.take_replicate]
    unfold unitsOf
    rw [List.map_replicate]
    simp [emissionInc, Nat.min_eq_left hi]
  unfold clearAtStep
  rw [hunits]
  unfold clearFires
  by_cases hz : i = 0
  · subst hz; simp
  · by_cases hdvd : n ∣ (i : ℤ)
    · have hmod : (i : ℤ) % n = 0 := Int.emod_eq_zero_of_dvd hdvd
      simp [hn.ne', hn, hz, hmod, hdvd, Nat.pos_of_ne_zero hz]
    · have hmod : (i : ℤ) % n ≠ 0 := fun hc => hdvd (Int.dvd_of_emod_eq_zero hc)
      simp [hmod, hdvd]

/-- Witness for C8's amended theorem: in a four-line unit run with N = 2 the
guard at iteration 2 equals the multiple test. -/
theorem clear_exactly_at_multiples_witness :
    clearAtStep (List.replicate 4 Emission.line) 2 2 =
      decide (0 < (2:ℕ) ∧ (2:ℤ) ∣ ((2:ℕ) : ℤ)) :=
  clear_exactly_at_multiples_unit_run 4 2 (by norm_num) 2 (by norm_num)

/-- C8 counterexample: two runs that both advance the line counter by 5 with
clear interval N = 2 — five plain lines clear twice, but a run whose second
emission is a spinner (counter jumps from 1 to 3, over the multiple 2) clears
only once.  Clears are therefore NOT exactly once per N emitted lines for
every interleaving. -/
theorem spinner_skips_clear_multiple :
    unitsOf (List.replicate 5 Emission.line) = 5 ∧
    unitsOf [Emission.line, Emission.spin, Emission.line, Emission.line] = 5 ∧
    numClears (List.replicate 5 Emission.line) 2 = 2 ∧
    numClears [Emission.line, Emission.spin, Emission.line, Emission.line] 2 = 1 := by
  refine ⟨by decide, by decide, by decide, by decide⟩

/-- Auxiliary: with `clear_every = 0` the guard never fires from any counter. -/
theorem runClears_zero (es : List Emission) (c : ℕ) : runClears es 0 c = 0 := by
  induction es generalizing c with
  | nil => rfl
  | cons e es ih => simp [runClears, clearFires, ih]

/-- C9: with `--clear-every 0` the screen-clear action is never invoked,
whatever the run emits. -/
theorem clear_every_zero_never_clears (es : List Emission) : numClears es 0 = 0 :=
  runClears_zero es 0

/-- Auxiliary: a negative `clear_every` never fires the guard from any
counter. -/
theorem runClears_neg (es : List Emission) (n : ℤ) (hn : n < 0) (c : ℕ) :
    runClears es n c = 0 := by
  induction es generalizing c with
  | nil => rfl
  | cons e es ih =>
    have hng : ¬ (0:ℤ) < n := by omega
    simp [runClears, clearFires, hng, ih]

/-- C10: for every negative `--clear-every` value the screen-clear action is
also never invoked — the guard requires `clear_every > 0`. -/
theorem clear_every_negative_never_clears (es : List Emission) (n : ℤ) (hn : n < 0) :
    numClears es n = 0 :=
  runClears_neg es n hn 0

/-- Witness for C10 at N = -3 over a run with a line, a bar and a spinner. -/
theorem clear_every_negative_witness :
    numClears [Emission.line, Emission.bar, Emission.spin] (-3) = 0 :=
  clear_every_negative_never_clears _ _ (by norm_num)

end InfiniteBusy

